import Mathlib

/-!
# Verification of the Spotify relay app (`user.py`)

Shallow embedding of the Flask application in `src/user.py`.  Handlers are
modelled as pure functions of their inputs: the request arguments, the
current clock reading (`datetime.now().timestamp()`, modelled as `Int`),
the upstream HTTP responses (passed in as oracles), and the Flask session
(a string-keyed dictionary of JSON values).  Each handler returns the
route's result, the session after the handler ran, and the list of
network calls it issued.  Uncaught Python exceptions (`KeyError`,
`TypeError`, `AttributeError`, `IndexError`) are modelled explicitly as an
`exc` outcome; Flask persists session mutations made before the raise, so
the session is returned on both paths.
-/

namespace SpotifyApp

/-- JSON values, as produced by `response.json()` / `json.loads`. -/
inductive Json where
  | null
  | bool (b : Bool)
  | str (s : String)
  | num (n : Int)
  | arr (items : List Json)
  | obj (fields : List (String × Json))

/-- Python exceptions that the handlers can raise. -/
inductive Exc where
  | keyError (k : String)
  | typeError
  | attributeError (a : String)
  | indexError
deriving DecidableEq, Repr

/-- The Flask session: a dictionary from string keys to (JSON) values. -/
abbrev Session := List (String × Json)

/-- Dictionary lookup, `d[k]` read side / `k in d`. -/
def getKey? (s : List (String × Json)) (k : String) : Option Json :=
  match s with
  | [] => none
  | (k', v) :: rest => if k' == k then some v else getKey? rest k

/-- Dictionary update `d[k] = v` (replaces in place, else appends). -/
def setKey (s : List (String × Json)) (k : String) (v : Json) : List (String × Json) :=
  match s with
  | [] => [(k, v)]
  | (k', v') :: rest => if k' == k then (k, v) :: rest else (k', v') :: setKey rest k v

/-- Subscripting a JSON value with a string key: `d['k']`.
`KeyError` on a missing key, `TypeError` when the value is not a dict. -/
def Json.item (j : Json) (k : String) : Except Exc Json :=
  match j with
  | .obj fields =>
    match getKey? fields k with
    | some v => .ok v
    | none => .error (.keyError k)
  | _ => .error .typeError

/-- Subscripting a JSON value with an integer index: `xs[i]`. -/
def jindex (j : Json) (i : Nat) : Except Exc Json :=
  match j with
  | .arr xs =>
    match xs.get? i with
    | some v => .ok v
    | none => .error .indexError
  | _ => .error .typeError

/-- Python truthiness of a JSON value (`if x:`). -/
def jtruthy : Json → Bool
  | .null => false
  | .bool b => b
  | .str s => !s.isEmpty
  | .num n => n != 0
  | .arr xs => !xs.isEmpty
  | .obj fs => !fs.isEmpty

/-- Reading a JSON value as a number for arithmetic/comparison
(Python `bool` is an `int`; everything else raises `TypeError`). -/
def asNum : Json → Option Int
  | .num n => some n
  | .bool b => some (if b then 1 else 0)
  | _ => none

/-- Python `str()` of the JSON values the app actually interpolates
(f-strings only ever receive token strings here; container reprs are
not needed by any handler and are collapsed to a placeholder). -/
def pyStr : Json → String
  | .str s => s
  | .num n => toString n
  | .bool true => "True"
  | .bool false => "False"
  | .null => "None"
  | .arr _ => "<list>"
  | .obj _ => "<dict>"

/-- `REDIRECT_URI` from `user.py`. -/
def REDIRECT_URI : String := "http://localhost:5000/callback"

/-- `TOKEN_URL` from `user.py`. -/
def TOKEN_URL : String := "https://accounts.spotify.com/api/token"

/-- `API_BASE_URL` from `user.py`. -/
def API_BASE_URL : String := "https://api.spotify.com/v1"

/-- An upstream HTTP response: status code and decoded JSON body. -/
structure HttpResp where
  status : Int
  body : Json

/-- Network calls a handler can issue. -/
inductive NetCall where
  | postToken (reqBody : List (String × String))
  | getUrl (url : String) (authHeader : String)

/-- What a route handler produces. -/
inductive RouteResult where
  | redirectTo (loc : String)
  | render (template : String) (data : Json)
  | jsonResp (body : Json) (status : Int)
  | noneResult

/-- Either a returned route result or an uncaught exception. -/
inductive Outcome where
  | ok (r : RouteResult)
  | exc (e : Exc)

/-- A handler's observable effect: outcome, final session, calls issued. -/
structure HResult where
  out : Outcome
  sess : Session
  calls : List NetCall

/-! ## `urllib.parse.urlencode`, at the byte level

Python encodes each key and value with `quote_plus` (UTF-8 bytes;
unreserved bytes kept, space becomes `+`, everything else `%XX` with
uppercase hex) and joins `key=value` pairs with `&`.  Strings are
modelled as their byte sequences (`List Nat`, each entry `< 256`). -/

/-- Bytes of a Lean string (the app's parameters are all ASCII). -/
def strBytes (s : String) : List Nat := s.data.map Char.toNat

/-- Rebuild a string from bytes (inverse of `strBytes` on ASCII). -/
def bytesStr (bs : List Nat) : String := ⟨bs.map Char.ofNat⟩

/-- The bytes `quote_plus` leaves unescaped: ALPHA / DIGIT / `_` `.` `-` `~`. -/
def isSafeByte (b : Nat) : Bool :=
  (48 ≤ b && b ≤ 57) || (65 ≤ b && b ≤ 90) || (97 ≤ b && b ≤ 122) ||
  b == 95 || b == 46 || b == 45 || b == 126

/-- Uppercase hex digit of a nibble, as a byte (`%02X` formatting). -/
def hexDigit (n : Nat) : Nat := if n < 10 then 48 + n else 55 + n

/-- `quote_plus` on a single byte: kept, `+` for space, or `%XX`. -/
def quoteByte (b : Nat) : List Nat :=
  if isSafeByte b then [b]
  else if b == 32 then [43]
  else [37, hexDigit (b / 16), hexDigit (b % 16)]

/-- `urllib.parse.quote_plus` over a byte string. -/
def quotePlus (s : List Nat) : List Nat := s.flatMap quoteByte

/-- One `key=value` component of the query string (61 is `=`). -/
def encPair (p : List Nat × List Nat) : List Nat :=
  quotePlus p.1 ++ 61 :: quotePlus p.2

/-- `urllib.parse.urlencode`: components joined with `&` (byte 38). -/
def urlencode : List (List Nat × List Nat) → List Nat
  | [] => []
  | [p] => encPair p
  | p :: q :: rest => encPair p ++ 38 :: urlencode (q :: rest)

/-- `build_recommendations_url` (user.py line 192): the recommendations
endpoint, `?` (byte 63), then the urlencoded parameters. -/
def build_recommendations_url (params : List (List Nat × List Nat)) : List Nat :=
  strBytes (API_BASE_URL ++ "/recommendations") ++ 63 :: urlencode params

/-! ## Decoding a query string

The source never decodes a query string, so the decoder below is the
standard inverse, with `urllib.parse.parse_qsl(qs, keep_blank_values=True)`
semantics: split on `&`, skip empty fields, split each field at the
first `=`, and percent-plus-decode each side. -/

/-- Hex digit bytes accepted by percent-decoding (both cases). -/
def isHexByte (c : Nat) : Bool :=
  (48 ≤ c && c ≤ 57) || (65 ≤ c && c ≤ 70) || (97 ≤ c && c ≤ 102)

/-- Numeric value of a hex digit byte. -/
def hexVal (c : Nat) : Nat :=
  if c ≤ 57 then c - 48 else if c ≤ 70 then c - 55 else c - 87

/-- `urllib.parse.unquote_plus`: `+` to space, `%XX` with two hex
digits to the named byte, anything else kept literally. -/
def unquotePlus : List Nat → List Nat
  | [] => []
  | [c] => if c == 43 then [32] else [c]
  | [c, d] => (if c == 43 then 32 else c) :: unquotePlus [d]
  | c :: h1 :: h2 :: rest2 =>
    if c == 43 then 32 :: unquotePlus (h1 :: h2 :: rest2)
    else if c == 37 && isHexByte h1 && isHexByte h2 then
      (hexVal h1 * 16 + hexVal h2) :: unquotePlus rest2
    else c :: unquotePlus (h1 :: h2 :: rest2)

/-- `str.split('&')` (byte 38). -/
def splitAmp : List Nat → List (List Nat)
  | [] => [[]]
  | c :: rest =>
    if c == 38 then [] :: splitAmp rest
    else
      match splitAmp rest with
      | [] => [[c]]
      | f :: fs => (c :: f) :: fs

/-- `field.split('=', 1)` (byte 61); a field with no `=` keeps the whole
field as the name with a blank value. -/
def splitFirstEq : List Nat → List Nat × List Nat
  | [] => ([], [])
  | c :: rest =>
    if c == 61 then ([], rest)
    else
      let p := splitFirstEq rest
      (c :: p.1, p.2)

/-- `urllib.parse.parse_qsl(qs, keep_blank_values=True)`. -/
def parse_qsl (qs : List Nat) : List (List Nat × List Nat) :=
  ((splitAmp qs).filter (fun f => !f.isEmpty)).map fun f =>
    let p := splitFirstEq f
    (unquotePlus p.1, unquotePlus p.2)

/-- The query-string part of a URL: everything after the first `?`
(byte 63). -/
def queryString : List Nat → List Nat
  | [] => []
  | c :: rest => if c == 63 then rest else queryString rest

/-! ## Route handlers, translated from `user.py` -/

/-- `GET /callback` (user.py line 49): exchanges the authorization code
for tokens at `TOKEN_URL` and stores `access_token`, `refresh_token`
and `expires_at = now + expires_in` in the session.  There is no status
check on the upstream response; a body missing a field raises
`KeyError` mid-write (Flask still persists earlier session writes). -/
def callback (args : List (String × String)) (clientId clientSecret : String)
    (now : Int) (tokenResp : HttpResp) (sess : Session) : HResult :=
  match args.lookup "error" with
  | some e => ⟨.ok (.jsonResp (.obj [("error", .str e)]) 200), sess, []⟩
  | none =>
    match args.lookup "code" with
    | some code =>
      let req_body : List (String × String) :=
        [("code", code), ("grant_type", "authorization_code"),
         ("redirect_uri", REDIRECT_URI), ("client_id", clientId),
         ("client_secret", clientSecret)]
      let calls := [NetCall.postToken req_body]
      let token_info := tokenResp.body
      match token_info.item "access_token" with
      | .error e => ⟨.exc e, sess, calls⟩
      | .ok atv =>
        let sess1 := setKey sess "access_token" atv
        match token_info.item "refresh_token" with
        | .error e => ⟨.exc e, sess1, calls⟩
        | .ok rtv =>
          let sess2 := setKey sess1 "refresh_token" rtv
          match token_info.item "expires_in" with
          | .error e => ⟨.exc e, sess2, calls⟩
          | .ok ei =>
            match asNum ei with
            | none => ⟨.exc .typeError, sess2, calls⟩
            | some n =>
              let sess3 := setKey sess2 "expires_at" (.num (now + n))
              ⟨.ok (.redirectTo "/home"), sess3, calls⟩
    | none => ⟨.ok .noneResult, sess, []⟩

/-- The per-artist body of the loop in `get_top_artists`
(user.py lines 96-109). -/
def parseArtist (artist : Json) : Except Exc Json := do
  let artist_name ← artist.item "name"
  let images ← artist.item "images"
  let artist_picture ←
    if jtruthy images then do
      let first ← jindex images 0
      first.item "url"
    else pure .null
  let popularity ← artist.item "popularity"
  let genres ← artist.item "genres"
  pure (.obj [("name", artist_name), ("picture", artist_picture),
              ("popularity", popularity), ("genres", genres)])

/-- The whole artists loop: iterate `response_data['items']`. -/
def parseArtists (response_data : Json) : Except Exc Json := do
  let items ← response_data.item "items"
  match items with
  | .arr xs => do
    let artists ← xs.mapM parseArtist
    pure (.arr artists)
  | _ => .error .typeError

/-- `GET /artists` (user.py line 77): redirect to `/login` without a
token, redirect to `/refresh-token` when `now > expires_at` (strict),
otherwise GET `/me/top/artists` with the bearer token; non-200 upstream
responses redirect to `/login`. -/
def get_top_artists (now : Int) (artistsResp : HttpResp) (sess : Session) : HResult :=
  match getKey? sess "access_token" with
  | none => ⟨.ok (.redirectTo "/login"), sess, []⟩
  | some atv =>
    match getKey? sess "expires_at" with
    | none => ⟨.exc (.keyError "expires_at"), sess, []⟩
    | some eav =>
      match asNum eav with
      | none => ⟨.exc .typeError, sess, []⟩
      | some ea =>
        if now > ea then ⟨.ok (.redirectTo "/refresh-token"), sess, []⟩
        else
          let calls := [NetCall.getUrl (API_BASE_URL ++ "/me/top/artists")
                          ("Bearer " ++ pyStr atv)]
          if artistsResp.status == 200 then
            match parseArtists artistsResp.body with
            | .ok artists => ⟨.ok (.render "artists.html" artists), sess, calls⟩
            | .error e => ⟨.exc e, sess, calls⟩
          else ⟨.ok (.redirectTo "/login"), sess, calls⟩

/-- The per-playlist body of the loop in `get_playlists`
(user.py lines 183-188). -/
def parsePlaylist (playlist : Json) : Except Exc Json := do
  let name ← playlist.item "name"
  let owner ← playlist.item "owner"
  let creator ← owner.item "display_name"
  let description ← playlist.item "description"
  pure (.obj [("name", name), ("creator", creator), ("description", description)])

/-- The whole playlists loop: iterate `response_data['items']`. -/
def parsePlaylists (response_data : Json) : Except Exc Json := do
  let items ← response_data.item "items"
  match items with
  | .arr xs => do
    let playlists ← xs.mapM parsePlaylist
    pure (.arr playlists)
  | _ => .error .typeError

/-- `GET /playlists` (user.py line 167): same credential gate as the
other list pages, but — unlike them — the upstream response body is
parsed with no status check at all (user.py lines 179-190). -/
def get_playlists (now : Int) (playlistsResp : HttpResp) (sess : Session) : HResult :=
  match getKey? sess "access_token" with
  | none => ⟨.ok (.redirectTo "/login"), sess, []⟩
  | some atv =>
    match getKey? sess "expires_at" with
    | none => ⟨.exc (.keyError "expires_at"), sess, []⟩
    | some eav =>
      match asNum eav with
      | none => ⟨.exc .typeError, sess, []⟩
      | some ea =>
        if now > ea then ⟨.ok (.redirectTo "/refresh-token"), sess, []⟩
        else
          let calls := [NetCall.getUrl (API_BASE_URL ++ "/me/playlists")
                          ("Bearer " ++ pyStr atv)]
          match parsePlaylists playlistsResp.body with
          | .ok playlists => ⟨.ok (.render "playlists.html" playlists), sess, calls⟩
          | .error e => ⟨.exc e, sess, calls⟩

/-- `GET /refresh-token` (user.py line 398).  Faithful to the source:
the guard tests session key `"refresh-token"` (with a hyphen), a key no
code path ever writes — the stored key is `"refresh_token"` — so the
guard normally renders the home template.  If the hyphenated key were
present and the token expired, the handler would read
`session['refresh_token']` into the request body and then evaluate
`request.post` — an attribute the Flask request object does not have —
raising `AttributeError` before any network call.  The upstream
response the refresh would have received is a parameter, but the
handler can never consume it. -/
def refresh_token (now : Int) (_refreshResp : HttpResp) (sess : Session) : HResult :=
  match getKey? sess "refresh-token" with
  | none => ⟨.ok (.render "home_of_app.html" .null), sess, []⟩
  | some _ =>
    match getKey? sess "expires_at" with
    | none => ⟨.exc (.keyError "expires_at"), sess, []⟩
    | some eav =>
      match asNum eav with
      | none => ⟨.exc .typeError, sess, []⟩
      | some ea =>
        if now > ea then
          match getKey? sess "refresh_token" with
          | none => ⟨.exc (.keyError "refresh_token"), sess, []⟩
          | some _rt => ⟨.exc (.attributeError "post"), sess, []⟩
        else ⟨.ok .noneResult, sess, []⟩

/-- `get_artist_id` (user.py line 254): search upstream for the artist;
on a 200 response with a non-empty `artists.items` list return the
first item's `id`; on an empty list, or any non-200 status, return
`None`. -/
def get_artist_id (artist_name : String) (searchResp : HttpResp) (sess : Session) :
    Except Exc (Option Json) × List NetCall :=
  match getKey? sess "access_token" with
  | none => (.error (.keyError "access_token"), [])
  | some atv =>
    let search_url := API_BASE_URL ++ "/search?q=" ++ artist_name ++
      "&type=artist&market=US&limit=1&offset=0"
    let calls := [NetCall.getUrl search_url ("Bearer " ++ pyStr atv)]
    if searchResp.status == 200 then
      match searchResp.body.item "artists" with
      | .error e => (.error e, calls)
      | .ok artists =>
        match artists.item "items" with
        | .error e => (.error e, calls)
        | .ok items =>
          if jtruthy items then
            match jindex items 0 with
            | .error e => (.error e, calls)
            | .ok first =>
              match first.item "id" with
              | .error e => (.error e, calls)
              | .ok idv => (.ok (some idv), calls)
          else (.ok none, calls)
    else
      (.ok none, calls)

/-- `request.form.get(k, default, type=int)`: Flask returns the default
when the key is absent or the value fails to parse as an int. -/
def formGetInt (form : List (String × String)) (k : String) (dflt : Int) : Int :=
  match form.lookup k with
  | none => dflt
  | some v =>
    match v.toInt? with
    | some n => n
    | none => dflt

/-- The per-track body of the suggestions loop
(user.py lines 375-384). -/
def parseSuggestion (item : Json) : Except Exc Json := do
  let song ← item.item "name"
  let artists ← item.item "artists"
  let first ← jindex artists 0
  let artist ← first.item "name"
  let popularity ← item.item "popularity"
  pure (.obj [("name", song), ("artist", artist), ("popularity", popularity)])

/-- The whole suggestions loop: iterate `response_data['tracks']`. -/
def parseSuggestions (response_data : Json) : Except Exc Json := do
  let tracks ← response_data.item "tracks"
  match tracks with
  | .arr xs => do
    let suggestions ← xs.mapM parseSuggestion
    pure (.arr suggestions)
  | _ => .error .typeError

/-- The 500 body produced by the `except` clause of
`get_recommendations`. -/
def errBody (msg : String) : Json := .obj [("error", .str msg)]

/-- `POST /get-recommendations` (user.py line 343).  The whole body runs
inside `try/except`, so any raised exception becomes a 500 JSON error.
A falsy artist id (in particular the `None` that `get_artist_id`
returns both for an empty result list and for any non-200 search
response) yields 404 `{error: 'No artist found'}`. -/
def get_recommendations (form : List (String × String))
    (searchResp recResp : HttpResp) (sess : Session) : HResult :=
  match form.lookup "artist" with
  | none =>
    ⟨.ok (.jsonResp (errBody "An error occurred while processing the request") 500), sess, []⟩
  | some artist_name =>
    match form.lookup "genre" with
    | none =>
      ⟨.ok (.jsonResp (errBody "An error occurred while processing the request") 500), sess, []⟩
    | some selected_genres =>
      let min_pop := formGetInt form "minimum" 0
      let max_pop := formGetInt form "maximum" 100
      match get_artist_id artist_name searchResp sess with
      | (.error _e, calls) =>
        ⟨.ok (.jsonResp (errBody "An error occurred while processing the request") 500), sess, calls⟩
      | (.ok artistId?, searchCalls) =>
        let truthy := match artistId? with
          | none => false
          | some j => jtruthy j
        if truthy then
          let artist_id := artistId?.getD .null
          let params : List (String × String) :=
            [("seed_artists", pyStr artist_id), ("seed_genres", selected_genres),
             ("limit", toString (15 : Int)), ("market", "US"),
             ("min_popularity", toString min_pop), ("max_popularity", toString max_pop)]
          let url := bytesStr (build_recommendations_url
            (params.map (fun p => (strBytes p.1, strBytes p.2))))
          match getKey? sess "access_token" with
          | none =>
            ⟨.ok (.jsonResp (errBody "An error occurred while processing the request") 500),
              sess, searchCalls⟩
          | some atv =>
            let calls := searchCalls ++ [NetCall.getUrl url ("Bearer " ++ pyStr atv)]
            if recResp.status == 200 then
              match parseSuggestions recResp.body with
              | .ok suggestions => ⟨.ok (.jsonResp suggestions 200), sess, calls⟩
              | .error _e =>
                ⟨.ok (.jsonResp (errBody "An error occurred while processing the request") 500),
                  sess, calls⟩
            else
              ⟨.ok (.jsonResp (errBody "An error occurred while fetching recommendations") 400),
                sess, calls⟩
        else
          ⟨.ok (.jsonResp (errBody "No artist found") 404), sess, searchCalls⟩

/-! ## Concrete example values used in witnesses and counterexamples -/

/-- Parameters are well formed when every key and value is a byte string. -/
abbrev wfParams (params : List (List Nat × List Nat)) : Prop :=
  ∀ p ∈ params, (∀ b ∈ p.1, b < 256) ∧ (∀ b ∈ p.2, b < 256)

/-- The parameter dictionary that `/suggestions` builds (user.py lines
221-226); the optional popularity keys are omitted there. -/
def suggestionsParams : List (List Nat × List Nat) :=
  [(strBytes "seed_artists", strBytes "5ficpwpxT4Gz9OsA3h3fFA"),
   (strBytes "seed_genres", strBytes "work-out"),
   (strBytes "limit", strBytes "15"),
   (strBytes "market", strBytes "US")]

/-- A populated session whose credential expired at time 100. -/
def sessEx : Session :=
  [("access_token", .str "AT1"), ("refresh_token", .str "RT1"),
   ("expires_at", .num 100)]

/-- A successful token-exchange response (`expires_in` 3600). -/
def tokenRespEx : HttpResp :=
  ⟨200, .obj [("access_token", .str "AT1"), ("refresh_token", .str "RT1"),
              ("expires_in", .num 3600)]⟩

/-- A successful refresh response that omits `refresh_token`. -/
def refreshRespEx : HttpResp :=
  ⟨200, .obj [("access_token", .str "AT2"), ("expires_in", .num 3600)]⟩

/-- The error response the token endpoint returns for a reused or
invalid authorization code. -/
def errTokenResp : HttpResp :=
  ⟨400, .obj [("error", .str "invalid_grant")]⟩

/-- A 401 resource response whose body carries only an error object. -/
def resp401 : HttpResp :=
  ⟨401, .obj [("error", .obj [("status", .num 401),
              ("message", .str "The access token expired")])]⟩

/-- A 200 search response with two matching artists. -/
def searchRespEx : HttpResp :=
  ⟨200, .obj [("artists", .obj [("items", .arr
    [.obj [("id", .str "ID1"), ("name", .str "First")],
     .obj [("id", .str "ID2"), ("name", .str "Second")]])])]⟩

/-- A placeholder response for oracles a run never consumes. -/
def dummyResp : HttpResp := ⟨200, .null⟩

/-- A populated session whose credential is still valid at time 50. -/
def sessValid : Session :=
  [("access_token", .str "AT1"), ("refresh_token", .str "RT1"),
   ("expires_at", .num 1000)]

/-- The credential invariant of the spec: the session stores an access
token exactly when it stores an expiry timestamp. -/
abbrev credInv (s : Session) : Prop :=
  (getKey? s "access_token").isSome ↔ (getKey? s "expires_at").isSome

/-! ## Session dictionary lemmas -/

theorem getKey?_setKey_self (s : List (String × Json)) (k : String) (v : Json) :
    getKey? (setKey s k v) k = some v := by
  induction s with
  | nil => simp [setKey, getKey?]
  | cons p rest ih =>
    obtain ⟨k', v'⟩ := p
    by_cases h : k' = k
    · simp [setKey, getKey?, h]
    · simp [setKey, getKey?, h, ih]

theorem getKey?_setKey_other (s : List (String × Json)) {k k2 : String} (v : Json)
    (h : k ≠ k2) : getKey? (setKey s k v) k2 = getKey? s k2 := by
  induction s with
  | nil => simp [setKey, getKey?, h]
  | cons p rest ih =>
    obtain ⟨k', v'⟩ := p
    by_cases hk : k' = k
    · subst hk
      simp [setKey, getKey?, h]
    · simp [setKey, getKey?, hk, ih]

/-- Every branch of the `/refresh-token` handler leaves the session
untouched: the reachable branches render or return `None`, and the
expired branch raises at `request.post` before any write. -/
theorem refresh_token_sess_unchanged (now : Int) (resp : HttpResp) (sess : Session) :
    (refresh_token now resp sess).sess = sess := by
  unfold refresh_token
  repeat' split
  all_goals rfl

/-- Every branch of `/refresh-token` issues no network call. -/
theorem refresh_token_no_calls (now : Int) (resp : HttpResp) (sess : Session) :
    (refresh_token now resp sess).calls = [] := by
  unfold refresh_token
  repeat' split
  all_goals rfl

/-- `/artists` never writes to the session. -/
theorem get_top_artists_sess_unchanged (now : Int) (resp : HttpResp) (sess : Session) :
    (get_top_artists now resp sess).sess = sess := by
  unfold get_top_artists
  repeat' split
  all_goals rfl

/-- Case analysis on a completed (non-crashing) run of `callback`: the
session is either untouched, or received the access token, refresh
token and matching expiry in the same operation. -/
theorem callback_ok_sess
    (args : List (String × String)) (clientId clientSecret : String)
    (now : Int) (resp : HttpResp) (sess : Session) (r : RouteResult)
    (hok : (callback args clientId clientSecret now resp sess).out = .ok r) :
    (callback args clientId clientSecret now resp sess).sess = sess
    ∨ ∃ atv rtv n,
        (callback args clientId clientSecret now resp sess).sess
          = setKey (setKey (setKey sess "access_token" atv) "refresh_token" rtv)
              "expires_at" (.num (now + n)) := by
  unfold callback at hok ⊢
  cases h1 : args.lookup "error" with
  | some e => exact Or.inl (by simp only [h1])
  | none =>
    simp only [h1] at hok ⊢
    cases h2 : args.lookup "code" with
    | none => exact Or.inl (by simp only [h2])
    | some code =>
      simp only [h2] at hok ⊢
      cases h3 : resp.body.item "access_token" with
      | error e => simp only [h3] at hok; exact Outcome.noConfusion hok
      | ok atv =>
        simp only [h3] at hok ⊢
        cases h4 : resp.body.item "refresh_token" with
        | error e => simp only [h4] at hok; exact Outcome.noConfusion hok
        | ok rtv =>
          simp only [h4] at hok ⊢
          cases h5 : resp.body.item "expires_in" with
          | error e => simp only [h5] at hok; exact Outcome.noConfusion hok
          | ok ei =>
            simp only [h5] at hok ⊢
            cases h6 : asNum ei with
            | none => simp only [h6] at hok; exact Outcome.noConfusion hok
            | some n =>
              simp only [h6] at hok ⊢
              exact Or.inr ⟨atv, rtv, n, rfl⟩

/-! ## Lemmas about percent-encoding -/

theorem safeByte_ne {b : Nat} (h : isSafeByte b = true) :
    b ≠ 37 ∧ b ≠ 38 ∧ b ≠ 43 ∧ b ≠ 61 ∧ b ≠ 63 := by
  simp [isSafeByte] at h
  omega

theorem isHexByte_hexDigit {n : Nat} (h : n < 16) : isHexByte (hexDigit n) = true := by
  by_cases hn : n < 10 <;>
    simp only [hexDigit, isHexByte, hn, if_true, if_false] <;>
    simp <;> omega

theorem hexVal_hexDigit {n : Nat} (h : n < 16) : hexVal (hexDigit n) = n := by
  by_cases hn : n < 10 <;>
    simp only [hexDigit, hexVal, hn, if_true, if_false] <;>
    (repeat' split) <;> omega

theorem hexDigit_ne {n : Nat} (h : n < 16) :
    hexDigit n ≠ 37 ∧ hexDigit n ≠ 38 ∧ hexDigit n ≠ 61 ∧ hexDigit n ≠ 63 := by
  unfold hexDigit
  split <;> omega

theorem quoteByte_not_sep {b : Nat} (hb : b < 256) :
    38 ∉ quoteByte b ∧ 61 ∉ quoteByte b ∧ 63 ∉ quoteByte b := by
  unfold quoteByte
  split
  · rename_i hs
    have h := safeByte_ne hs
    simp [h.2.1.symm, (h.2.2.2.1).symm, (h.2.2.2.2).symm]
  · split
    · simp
    · have h1 := hexDigit_ne (n := b / 16) (by omega)
      have h2 := hexDigit_ne (n := b % 16) (by omega)
      simp [h1.2.1.symm, h1.2.2.1.symm, h1.2.2.2.symm,
            h2.2.1.symm, h2.2.2.1.symm, h2.2.2.2.symm]

theorem quotePlus_cons (b : Nat) (s : List Nat) :
    quotePlus (b :: s) = quoteByte b ++ quotePlus s := by
  simp [quotePlus]

theorem quotePlus_not_sep (s : List Nat) (hs : ∀ b ∈ s, b < 256) :
    38 ∉ quotePlus s ∧ 61 ∉ quotePlus s ∧ 63 ∉ quotePlus s := by
  induction s with
  | nil => simp [quotePlus]
  | cons b s ih =>
    have hb := quoteByte_not_sep (hs b (by simp))
    have ih' := ih (fun x hx => hs x (by simp [hx]))
    simp only [quotePlus_cons, List.mem_append]
    refine ⟨?_, ?_, ?_⟩ <;> rintro (h | h) <;>
      first
        | exact hb.1 h | exact hb.2.1 h | exact hb.2.2 h
        | exact ih'.1 h | exact ih'.2.1 h | exact ih'.2.2 h

theorem unquotePlus_quoteByte {b : Nat} (hb : b < 256) (t : List Nat) :
    unquotePlus (quoteByte b ++ t) = b :: unquotePlus t := by
  unfold quoteByte
  split
  · rename_i hs
    have h := safeByte_ne hs
    match t with
    | [] => simp [unquotePlus, h.1, h.2.2.1]
    | [d] => simp [unquotePlus, h.1, h.2.2.1]
    | d1 :: d2 :: r =>
      simp only [List.cons_append, List.nil_append, unquotePlus]
      simp [h.1, h.2.2.1]
  · split
    · rename_i hsp
      have hb32 : b = 32 := by simpa using hsp
      subst hb32
      match t with
      | [] => simp [unquotePlus]
      | [d] => simp [unquotePlus]
      | d1 :: d2 :: r => simp [unquotePlus]
    · have h1 : b / 16 < 16 := by omega
      have h2 : b % 16 < 16 := by omega
      simp only [List.cons_append, List.nil_append, unquotePlus]
      simp [isHexByte_hexDigit h1, isHexByte_hexDigit h2,
            hexVal_hexDigit h1, hexVal_hexDigit h2]
      omega

theorem unquotePlus_quotePlus_append (s : List Nat) (hs : ∀ b ∈ s, b < 256)
    (t : List Nat) : unquotePlus (quotePlus s ++ t) = s ++ unquotePlus t := by
  induction s with
  | nil => simp [quotePlus]
  | cons b s ih =>
    have hb : b < 256 := hs b (by simp)
    have ih' := ih (fun x hx => hs x (by simp [hx]))
    rw [quotePlus_cons, List.append_assoc, unquotePlus_quoteByte hb, ih']
    rfl

theorem unquotePlus_quotePlus (s : List Nat) (hs : ∀ b ∈ s, b < 256) :
    unquotePlus (quotePlus s) = s := by
  have h := unquotePlus_quotePlus_append s hs []
  simpa [unquotePlus] using h

theorem splitFirstEq_append {a : List Nat} (ha : 61 ∉ a) (b : List Nat) :
    splitFirstEq (a ++ 61 :: b) = (a, b) := by
  induction a with
  | nil => simp [splitFirstEq]
  | cons c a ih =>
    have hc : c ≠ 61 := fun h => ha (by simp [h])
    have ha' : (61 : Nat) ∉ a := fun h => ha (by simp [h])
    simp [splitFirstEq, hc, ih ha']

theorem splitAmp_no {a : List Nat} (ha : 38 ∉ a) : splitAmp a = [a] := by
  induction a with
  | nil => simp [splitAmp]
  | cons c a ih =>
    have hc : c ≠ 38 := fun h => ha (by simp [h])
    have ha' : (38 : Nat) ∉ a := fun h => ha (by simp [h])
    simp [splitAmp, hc, ih ha']

theorem splitAmp_append {a : List Nat} (ha : 38 ∉ a) (b : List Nat) :
    splitAmp (a ++ 38 :: b) = a :: splitAmp b := by
  induction a with
  | nil => simp [splitAmp]
  | cons c a ih =>
    have hc : c ≠ 38 := fun h => ha (by simp [h])
    have ha' : (38 : Nat) ∉ a := fun h => ha (by simp [h])
    simp [splitAmp, hc, ih ha']

theorem queryString_append {a : List Nat} (ha : 63 ∉ a) (b : List Nat) :
    queryString (a ++ 63 :: b) = b := by
  induction a with
  | nil => simp [queryString]
  | cons c a ih =>
    have hc : c ≠ 63 := fun h => ha (by simp [h])
    have ha' : (63 : Nat) ∉ a := fun h => ha (by simp [h])
    simp [queryString, hc, ih ha']

theorem encPair_ne_nil (p : List Nat × List Nat) : encPair p ≠ [] := by
  simp [encPair]

theorem encPair_not38 {p : List Nat × List Nat}
    (h1 : ∀ b ∈ p.1, b < 256) (h2 : ∀ b ∈ p.2, b < 256) : 38 ∉ encPair p := by
  have q1 := (quotePlus_not_sep p.1 h1).1
  have q2 := (quotePlus_not_sep p.2 h2).1
  simp only [encPair, List.mem_append, List.mem_cons]
  rintro (h | h | h)
  · exact q1 h
  · omega
  · exact q2 h

theorem decode_encPair {p : List Nat × List Nat}
    (h1 : ∀ b ∈ p.1, b < 256) (h2 : ∀ b ∈ p.2, b < 256) :
    (unquotePlus (splitFirstEq (encPair p)).1,
     unquotePlus (splitFirstEq (encPair p)).2) = p := by
  have h61 : (61 : Nat) ∉ quotePlus p.1 := (quotePlus_not_sep p.1 h1).2.1
  rw [encPair, splitFirstEq_append h61]
  simp [unquotePlus_quotePlus _ h1, unquotePlus_quotePlus _ h2]

theorem parse_qsl_urlencode (params : List (List Nat × List Nat))
    (h : wfParams params) : parse_qsl (urlencode params) = params := by
  induction params with
  | nil => simp [urlencode, parse_qsl, splitAmp]
  | cons p rest ih =>
    have hp := h p (by simp)
    have hrest : wfParams rest := fun q hq => h q (List.mem_cons_of_mem p hq)
    have hne : (encPair p).isEmpty = false := by
      have := encPair_ne_nil p
      cases hep : encPair p with
      | nil => exact absurd hep this
      | cons x xs => simp
    match rest with
    | [] =>
      rw [urlencode, parse_qsl, splitAmp_no (encPair_not38 hp.1 hp.2)]
      simp [hne, decode_encPair hp.1 hp.2]
    | q :: rs =>
      rw [urlencode, parse_qsl, splitAmp_append (encPair_not38 hp.1 hp.2)]
      have ihr := ih hrest
      rw [parse_qsl] at ihr
      simp only [List.filter_cons, hne, Bool.not_false, if_true, List.map_cons]
      rw [ihr]
      simp [decode_encPair hp.1 hp.2]

/-! ## Claim theorems -/

/-- C9: `build_recommendations_url` round-trips.  For every
recommendation query parameter dictionary (byte-string keys and
values), URL-encoding the parameters onto the recommendations endpoint
and then decoding the query string of the resulting URL reproduces the
original key/value set exactly; the quantification covers dictionaries
with or without the optional minimum/maximum popularity keys. -/
theorem build_recommendations_url_roundtrip
    (params : List (List Nat × List Nat)) (h : wfParams params) :
    parse_qsl (queryString (build_recommendations_url params)) = params := by
  have hq : (63 : Nat) ∉ strBytes (API_BASE_URL ++ "/recommendations") := by decide
  rw [build_recommendations_url, queryString_append hq,
      parse_qsl_urlencode params h]

/-- Witness for C9: the concrete parameter dictionary `/suggestions`
builds — which omits the optional popularity keys — round-trips. -/
theorem build_recommendations_url_roundtrip_witness :
    wfParams suggestionsParams ∧
    parse_qsl (queryString (build_recommendations_url suggestionsParams)) =
      suggestionsParams :=
  ⟨by decide, build_recommendations_url_roundtrip suggestionsParams (by decide)⟩

/-- C2: when the stored credential has not expired (`now < expires_at`)
the validity gate passes the request through with the credential
unchanged: no session field is rewritten, the handler issues exactly
the upstream resource GET carrying the stored access token, and no
token-endpoint call is made. -/
theorem fresh_credential_passes_gate
    (now ea : Int) (atv : Json) (resp : HttpResp) (sess : Session)
    (hat : getKey? sess "access_token" = some atv)
    (hea : getKey? sess "expires_at" = some (.num ea))
    (hlt : now < ea) :
    (get_top_artists now resp sess).sess = sess
    ∧ (get_top_artists now resp sess).calls
        = [NetCall.getUrl (API_BASE_URL ++ "/me/top/artists") ("Bearer " ++ pyStr atv)]
    ∧ ∀ b, NetCall.postToken b ∉ (get_top_artists now resp sess).calls := by
  have hgt : ¬ (now > ea) := by omega
  refine ⟨get_top_artists_sess_unchanged now resp sess, ?_⟩
  have hcalls : (get_top_artists now resp sess).calls
      = [NetCall.getUrl (API_BASE_URL ++ "/me/top/artists") ("Bearer " ++ pyStr atv)] := by
    unfold get_top_artists
    rw [hat, hea]
    simp only [asNum, if_neg hgt]
    by_cases h200 : (resp.status == 200) = true
    · rw [if_pos h200]
      cases hp : parseArtists resp.body <;> simp
    · rw [if_neg h200]
  refine ⟨hcalls, ?_⟩
  intro b hb
  rw [hcalls] at hb
  simp at hb

/-- Witness for C2 at `sessValid` (expiry 1000) and time 50. -/
theorem fresh_credential_passes_gate_witness :
    getKey? sessValid "access_token" = some (.str "AT1")
    ∧ getKey? sessValid "expires_at" = some (.num 1000)
    ∧ (50 : Int) < 1000
    ∧ ((get_top_artists 50 dummyResp sessValid).sess = sessValid
      ∧ (get_top_artists 50 dummyResp sessValid).calls
          = [NetCall.getUrl (API_BASE_URL ++ "/me/top/artists")
              ("Bearer " ++ pyStr (.str "AT1"))]
      ∧ ∀ b, NetCall.postToken b ∉ (get_top_artists 50 dummyResp sessValid).calls) :=
  ⟨rfl, rfl, by decide,
   fresh_credential_passes_gate 50 1000 (.str "AT1") dummyResp sessValid rfl rfl
     (by decide)⟩

/-- C4: a successful authorization-code exchange stores the
server-reported access token and refresh token and sets
`expires_at = now + expires_in` for every server-reported lifetime
`n`, then redirects to `/home`. -/
theorem exchange_stores_now_plus_expires_in
    (args : List (String × String)) (code clientId clientSecret atk rtk : String)
    (n now : Int) (resp : HttpResp) (sess : Session)
    (hne : args.lookup "error" = none)
    (hcode : args.lookup "code" = some code)
    (hat : resp.body.item "access_token" = .ok (.str atk))
    (hrt : resp.body.item "refresh_token" = .ok (.str rtk))
    (hei : resp.body.item "expires_in" = .ok (.num n)) :
    (callback args clientId clientSecret now resp sess).out = .ok (.redirectTo "/home")
    ∧ getKey? (callback args clientId clientSecret now resp sess).sess "access_token"
        = some (.str atk)
    ∧ getKey? (callback args clientId clientSecret now resp sess).sess "refresh_token"
        = some (.str rtk)
    ∧ getKey? (callback args clientId clientSecret now resp sess).sess "expires_at"
        = some (.num (now + n)) := by
  unfold callback
  simp only [hne, hcode, hat, hrt, hei, asNum]
  refine ⟨by trivial, ?_, ?_, ?_⟩
  · rw [getKey?_setKey_other _ _ (by decide), getKey?_setKey_other _ _ (by decide),
        getKey?_setKey_self]
  · rw [getKey?_setKey_other _ _ (by decide), getKey?_setKey_self]
  · rw [getKey?_setKey_self]

/-- Witness for C4: the spec's end-to-end example — an exchange
returning `expires_in = 3600` at time 1000 stores expiry 4600. -/
theorem exchange_stores_now_plus_expires_in_witness :
    ([("code", "C")] : List (String × String)).lookup "error" = none
    ∧ ([("code", "C")] : List (String × String)).lookup "code" = some "C"
    ∧ tokenRespEx.body.item "access_token" = .ok (.str "AT1")
    ∧ tokenRespEx.body.item "refresh_token" = .ok (.str "RT1")
    ∧ tokenRespEx.body.item "expires_in" = .ok (.num 3600)
    ∧ ((callback [("code", "C")] "cid" "cs" 1000 tokenRespEx []).out
        = .ok (.redirectTo "/home")
      ∧ getKey? (callback [("code", "C")] "cid" "cs" 1000 tokenRespEx []).sess
          "access_token" = some (.str "AT1")
      ∧ getKey? (callback [("code", "C")] "cid" "cs" 1000 tokenRespEx []).sess
          "refresh_token" = some (.str "RT1")
      ∧ getKey? (callback [("code", "C")] "cid" "cs" 1000 tokenRespEx []).sess
          "expires_at" = some (.num (1000 + 3600))) :=
  ⟨rfl, rfl, rfl, rfl, rfl,
   exchange_stores_now_plus_expires_in [("code", "C")] "C" "cid" "cs" "AT1" "RT1"
     3600 1000 tokenRespEx [] rfl rfl rfl rfl rfl⟩

/-- C1 evaluated at the failing input: with an expired credential
(`expires_at` 100, request at time 200, refresh token "RT1" stored
under `"refresh_token"`), the gate redirects to `/refresh-token`, and
the `/refresh-token` handler — guarded on the never-written hyphenated
session key `"refresh-token"` — renders the home template: zero
token-endpoint POSTs are issued, the session keeps its stale expiry,
and no refresh-failure error value is produced. -/
theorem expired_gate_performs_no_refresh :
    get_top_artists 200 dummyResp sessEx
      = ⟨.ok (.redirectTo "/refresh-token"), sessEx, []⟩
    ∧ refresh_token 200 refreshRespEx sessEx
      = ⟨.ok (.render "home_of_app.html" .null), sessEx, []⟩ :=
  ⟨rfl, rfl⟩

/-- C5 counterexample: applying the authorization-code exchange to the
token endpoint's 400 `invalid_grant` error body (what reusing a code
elicits) makes the handler raise an uncaught `KeyError` — a crash with
no returned result — contradicting the claim that the exchange fails
with an `ExchangeFailed` error value rather than crashing. -/
theorem exchange_error_body_crashes :
    (callback [("code", "USED")] "cid" "cs" 0 errTokenResp []).out
      = .exc (.keyError "access_token")
    ∧ ∀ r, (callback [("code", "USED")] "cid" "cs" 0 errTokenResp []).out ≠ .ok r := by
  refine ⟨rfl, ?_⟩
  intro r h
  rw [show (callback [("code", "USED")] "cid" "cs" 0 errTokenResp []).out
      = .exc (.keyError "access_token") from rfl] at h
  exact Outcome.noConfusion h

/-- C5 amended: for every authorization-code exchange whose response
body is an object missing `access_token` — in particular any upstream
error body, including the one an already-used code elicits — the
handler raises an uncaught `KeyError` (an HTTP 500 crash) instead of
returning an error value, and writes no session field. -/
theorem exchange_missing_access_token_raises
    (args : List (String × String)) (code clientId clientSecret : String)
    (now : Int) (resp : HttpResp) (sess : Session)
    (hne : args.lookup "error" = none)
    (hcode : args.lookup "code" = some code)
    (hmiss : resp.body.item "access_token" = .error (.keyError "access_token")) :
    (callback args clientId clientSecret now resp sess).out
      = .exc (.keyError "access_token")
    ∧ (callback args clientId clientSecret now resp sess).sess = sess := by
  unfold callback
  simp only [hne, hcode, hmiss]
  constructor <;> trivial

/-- Witness for the amended C5, at the concrete reused-code input. -/
theorem exchange_missing_access_token_raises_witness :
    ([("code", "USED")] : List (String × String)).lookup "error" = none
    ∧ ([("code", "USED")] : List (String × String)).lookup "code" = some "USED"
    ∧ errTokenResp.body.item "access_token" = .error (.keyError "access_token")
    ∧ ((callback [("code", "USED")] "cid" "cs" 7 errTokenResp sessValid).out
        = .exc (.keyError "access_token")
      ∧ (callback [("code", "USED")] "cid" "cs" 7 errTokenResp sessValid).sess
          = sessValid) :=
  ⟨rfl, rfl, rfl,
   exchange_missing_access_token_raises [("code", "USED")] "USED" "cid" "cs" 7
     errTokenResp sessValid rfl rfl rfl⟩

/-- C6 evaluated at the failing input: stored refresh token "RT1",
expired credential (expiry 100, now 200), upstream refresh response
`{access_token: "AT2", expires_in: 3600}` with no `refresh_token`
field.  The handler renders the home template without performing the
exchange: the session still holds access token "AT1" and expiry 100 —
the claimed update of the access token and expiry never happens. -/
theorem refresh_response_never_applied :
    (refresh_token 200 refreshRespEx sessEx).out
      = .ok (.render "home_of_app.html" .null)
    ∧ (refresh_token 200 refreshRespEx sessEx).calls = []
    ∧ getKey? (refresh_token 200 refreshRespEx sessEx).sess "access_token"
        = some (.str "AT1")
    ∧ getKey? (refresh_token 200 refreshRespEx sessEx).sess "refresh_token"
        = some (.str "RT1")
    ∧ getKey? (refresh_token 200 refreshRespEx sessEx).sess "expires_at"
        = some (.num 100) :=
  ⟨rfl, rfl, rfl, rfl, rfl⟩

/-- C7 evaluated at the failing input: with a valid credential, a 401
upstream response makes `get_playlists` raise `KeyError('items')` (an
HTTP 500 crash), not redirect to `/login`; the sibling `/artists`
handler redirects to `/login` on the same response, and a missing
credential redirects `/playlists` to `/login`. -/
theorem playlists_crash_on_upstream_401 :
    get_playlists 50 resp401 sessValid
      = ⟨.exc (.keyError "items"), sessValid,
         [NetCall.getUrl (API_BASE_URL ++ "/me/playlists") "Bearer AT1"]⟩
    ∧ get_top_artists 50 resp401 sessValid
      = ⟨.ok (.redirectTo "/login"), sessValid,
         [NetCall.getUrl (API_BASE_URL ++ "/me/top/artists") "Bearer AT1"]⟩
    ∧ get_playlists 50 resp401 []
      = ⟨.ok (.redirectTo "/login"), [], []⟩ :=
  ⟨rfl, rfl, rfl⟩

/-- C8: on a 200 search response, `get_artist_id` returns `None` when
the upstream result list is empty (a valid outcome, not an error) and
returns the first item's id when the list is non-empty, ignoring all
subsequent matches. -/
theorem artist_search_first_or_none
    (nm : String) (resp : HttpResp) (sess : Session) (atv artistsJ : Json)
    (xs : List Json)
    (hat : getKey? sess "access_token" = some atv)
    (h200 : resp.status = 200)
    (hart : resp.body.item "artists" = .ok artistsJ)
    (hitems : artistsJ.item "items" = .ok (.arr xs)) :
    (xs = [] → (get_artist_id nm resp sess).1 = .ok none)
    ∧ ∀ first rest idv, xs = first :: rest → first.item "id" = .ok idv →
        (get_artist_id nm resp sess).1 = .ok (some idv) := by
  have h200b : (resp.status == 200) = true := by simpa using h200
  constructor
  · rintro rfl
    unfold get_artist_id
    simp only [hat, h200b, if_true, hart, hitems, jtruthy]
    simp
  · rintro first rest idv rfl hid
    unfold get_artist_id
    simp only [hat, h200b, if_true, hart, hitems, jtruthy, jindex, hid]
    simp [hid]

/-- Witness for C8 at a search response with two matches: the first
id is returned and the second ignored. -/
theorem artist_search_first_or_none_witness :
    getKey? sessValid "access_token" = some (.str "AT1")
    ∧ searchRespEx.status = 200
    ∧ searchRespEx.body.item "artists"
        = .ok (.obj [("items", .arr
            [.obj [("id", .str "ID1"), ("name", .str "First")],
             .obj [("id", .str "ID2"), ("name", .str "Second")]])])
    ∧ (get_artist_id "Queen" searchRespEx sessValid).1 = .ok (some (.str "ID1")) := by
  refine ⟨rfl, rfl, rfl, ?_⟩
  exact (artist_search_first_or_none "Queen" searchRespEx sessValid (.str "AT1")
      (.obj [("items", .arr
        [.obj [("id", .str "ID1"), ("name", .str "First")],
         .obj [("id", .str "ID2"), ("name", .str "Second")]])])
      [.obj [("id", .str "ID1"), ("name", .str "First")],
       .obj [("id", .str "ID2"), ("name", .str "Second")]]
      rfl rfl rfl rfl).2
    (.obj [("id", .str "ID1"), ("name", .str "First")])
    [.obj [("id", .str "ID2"), ("name", .str "Second")]]
    (.str "ID1") rfl rfl

/-- C10: for every non-200 search response, `get_artist_id` returns
`None` — indistinguishable from "no artist found" — and therefore the
`/get-recommendations` endpoint answers 404 with body
`{error: 'No artist found'}` instead of surfacing the upstream
error. -/
theorem non200_search_reports_artist_not_found
    (nm genre : String) (form : List (String × String))
    (searchResp recResp : HttpResp) (sess : Session) (atv : Json)
    (hart : form.lookup "artist" = some nm)
    (hg : form.lookup "genre" = some genre)
    (hat : getKey? sess "access_token" = some atv)
    (hs : searchResp.status ≠ 200) :
    (get_artist_id nm searchResp sess).1 = .ok none
    ∧ (get_recommendations form searchResp recResp sess).out
        = .ok (.jsonResp (errBody "No artist found") 404) := by
  have h200 : (searchResp.status == 200) = false := by simpa using hs
  have hga : get_artist_id nm searchResp sess
      = (.ok none, [NetCall.getUrl (API_BASE_URL ++ "/search?q=" ++ nm ++
          "&type=artist&market=US&limit=1&offset=0") ("Bearer " ++ pyStr atv)]) := by
    unfold get_artist_id
    simp only [hat, h200]
    simp
  refine ⟨by rw [hga], ?_⟩
  unfold get_recommendations
  simp only [hart, hg, hga]
  simp

/-- Witness for C10 at a concrete 401 search response. -/
theorem non200_search_reports_artist_not_found_witness :
    ([("artist", "Queen"), ("genre", "rock")] : List (String × String)).lookup
        "artist" = some "Queen"
    ∧ ([("artist", "Queen"), ("genre", "rock")] : List (String × String)).lookup
        "genre" = some "rock"
    ∧ getKey? sessValid "access_token" = some (.str "AT1")
    ∧ resp401.status ≠ 200
    ∧ ((get_artist_id "Queen" resp401 sessValid).1 = .ok none
      ∧ (get_recommendations [("artist", "Queen"), ("genre", "rock")] resp401
          dummyResp sessValid).out
        = .ok (.jsonResp (errBody "No artist found") 404)) :=
  ⟨rfl, rfl, rfl, by decide,
   non200_search_reports_artist_not_found "Queen" "rock"
     [("artist", "Queen"), ("genre", "rock")] resp401 dummyResp sessValid
     (.str "AT1") rfl rfl rfl (by decide)⟩

/-- C3: every credential-writing operation preserves the invariant
that `expires_at` is set together with `access_token`.  A completed
(non-crashing) run of the authorization-code exchange either leaves
the session untouched or writes the access token, refresh token and a
matching expiry in the same operation — in both cases the invariant is
preserved — and every completed run of the refresh handler leaves the
session unchanged. -/
theorem token_writes_keep_invariant
    (args : List (String × String)) (clientId clientSecret : String)
    (now : Int) (resp : HttpResp) (sess : Session) (r : RouteResult)
    (hok : (callback args clientId clientSecret now resp sess).out = .ok r) :
    ((callback args clientId clientSecret now resp sess).sess = sess
      ∨ ∃ atv rtv n,
          (callback args clientId clientSecret now resp sess).sess
            = setKey (setKey (setKey sess "access_token" atv) "refresh_token" rtv)
                "expires_at" (.num (now + n)))
    ∧ (credInv sess → credInv (callback args clientId clientSecret now resp sess).sess)
    ∧ ∀ (now2 : Int) (resp2 : HttpResp) (sess2 : Session) (r2 : RouteResult),
        (refresh_token now2 resp2 sess2).out = .ok r2 →
        (refresh_token now2 resp2 sess2).sess = sess2 := by
  have hc := callback_ok_sess args clientId clientSecret now resp sess r hok
  refine ⟨hc, ?_, fun now2 resp2 sess2 r2 _ =>
    refresh_token_sess_unchanged now2 resp2 sess2⟩
  intro hinv
  rcases hc with he | ⟨atv, rtv, n, he⟩
  · rw [he]; exact hinv
  · rw [he]
    constructor
    · intro _
      simp [getKey?_setKey_self]
    · intro _
      rw [getKey?_setKey_other _ _ (by decide), getKey?_setKey_other _ _ (by decide),
          getKey?_setKey_self]
      simp

/-- Witness for C3: the concrete successful exchange from the empty
session. -/
theorem token_writes_keep_invariant_witness :
    (callback [("code", "C")] "cid" "cs" 1000 tokenRespEx []).out
        = .ok (.redirectTo "/home")
    ∧ (((callback [("code", "C")] "cid" "cs" 1000 tokenRespEx []).sess = ([] : Session)
        ∨ ∃ atv rtv n,
            (callback [("code", "C")] "cid" "cs" 1000 tokenRespEx []).sess
              = setKey (setKey (setKey ([] : Session) "access_token" atv)
                  "refresh_token" rtv) "expires_at" (.num (1000 + n)))
      ∧ (credInv ([] : Session)
          → credInv (callback [("code", "C")] "cid" "cs" 1000 tokenRespEx []).sess)
      ∧ ∀ (now2 : Int) (resp2 : HttpResp) (sess2 : Session) (r2 : RouteResult),
          (refresh_token now2 resp2 sess2).out = .ok r2 →
          (refresh_token now2 resp2 sess2).sess = sess2) :=
  ⟨rfl, token_writes_keep_invariant [("code", "C")] "cid" "cs" 1000 tokenRespEx []
    (.redirectTo "/home") rfl⟩

end SpotifyApp
